import Mathlib

/-!
Verification of the homestay booking core: the client-side pricing
calculator (`calculateTotal` in the booking page), the in-memory
reservation repository (`MemStorage` in the storage module), the zod
validation schema for bookings (`insertBookingSchema` in
`shared/schema.ts`) and the Express route handlers for bookings
(`server/routes.ts`).

Conventions of the shallow embedding:

* JavaScript `Date` values and timestamps are modelled as integer
  milliseconds (`Int`).  A date *input string* to the pricing calculator
  is modelled by `DateInput`: the empty string (falsy, caught by the
  `!checkin || !checkout` guard) is `missing`, a non-empty string that
  `new Date` cannot parse (so `getTime()` is `NaN`) is `unparseable`,
  and a parseable string is `valid t` with `t` its timestamp.
* A JavaScript number that may be `NaN` is modelled by `JsNum`; the
  arithmetic of the pricing calculator is carried out exactly over the
  integers (`Math.ceil` and `Math.round` of exact quotients), which
  agrees with IEEE doubles on the magnitudes involved.
* `undefined`/`null` values are modelled with `Option`.
-/

namespace Homestay

/-- The checkin/checkout argument of `calculateTotal` after `new Date`:
missing (empty string), unparseable (`getTime()` is `NaN`), or a
timestamp in milliseconds. -/
inductive DateInput where
  | missing
  | unparseable
  | valid (t : Int)
deriving DecidableEq, Repr

/-- A JavaScript number result that may be `NaN`. -/
inductive JsNum where
  | nan
  | int (n : Int)
deriving DecidableEq, Repr

/-- Milliseconds per day, the `1000 * 60 * 60 * 24` of the source. -/
def msPerDay : Nat := 1000 * 60 * 60 * 24

/-- `Math.ceil (n / d)` for an integer numerator and positive integer
denominator, computed exactly over `ℤ`: `⌈n/d⌉ = -((-n)/d)` with
floor division. -/
def jsCeilDiv (n : Int) (d : Nat) : Int := -(-n / (d : Int))

/-- `Math.round (n / d)` (round half up, `⌊n/d + 1/2⌋`) for an integer
numerator and positive integer denominator, computed exactly over
`ℤ`. -/
def jsRoundDiv (n : Int) (d : Nat) : Int := (2 * n + d) / (2 * (d : Int))

/-- `jsCeilDiv` is the ceiling of the exact rational quotient. -/
theorem jsCeilDiv_eq_ceil (n : Int) (d : Nat) :
    jsCeilDiv n d = ⌈(↑n / ↑d : ℚ)⌉ := by
  rw [jsCeilDiv, neg_eq_iff_eq_neg, ← Int.floor_neg, ← neg_div, ← Int.cast_neg,
    Rat.floor_intCast_div_natCast]

/-- `jsRoundDiv` rounds the exact rational quotient half up. -/
theorem jsRoundDiv_eq_floor (n : Int) (d : Nat) (hd : 0 < d) :
    jsRoundDiv n d = ⌊(↑n / ↑d : ℚ) + 1 / 2⌋ := by
  have h : (↑n / ↑d : ℚ) + 1 / 2 = ((2 * n + d : ℤ) : ℚ) / ((2 * d : ℕ) : ℚ) := by
    have hd' : ((d : ℚ)) ≠ 0 := by positivity
    push_cast
    field_simp
    ring
  rw [h, Rat.floor_intCast_div_natCast, jsRoundDiv]
  push_cast
  ring_nf

/-- Embedding of `calculateTotal(checkin, checkout, guests)` from the
booking page.  The source:
`if (!checkin || !checkout) return 0;` then
`nights = Math.ceil((checkoutDate.getTime() - checkinDate.getTime()) / (1000*60*60*24))`,
`if (nights <= 0) return 0;` then
`subtotal = 850 * nights`, `serviceFee = Math.round(subtotal * 0.06)`,
`taxes = Math.round(subtotal * 0.08)`, returning
`subtotal + serviceFee + taxes`.  `subtotal * 0.06` is the exact
quotient `subtotal * 6 / 100`, and likewise for `0.08`.  When either
date is non-empty but unparseable the timestamp subtraction produces
`NaN`, the `nights <= 0` test is false on `NaN`, and `NaN` propagates
through the arithmetic to the returned value.  The `guests` parameter
is never read. -/
def calculateTotal (checkin checkout : DateInput) (guests : ℚ) : JsNum :=
  match checkin, checkout with
  | .missing, _ => .int 0
  | _, .missing => .int 0
  | .unparseable, _ => .nan
  | _, .unparseable => .nan
  | .valid ci, .valid co =>
    let nights : Int := jsCeilDiv (co - ci) msPerDay
    if nights ≤ 0 then .int 0
    else
      let subtotal : Int := 850 * nights
      let serviceFee : Int := jsRoundDiv (subtotal * 6) 100
      let taxes : Int := jsRoundDiv (subtotal * 8) 100
      .int (subtotal + serviceFee + taxes)

/-- C1: for every pair of parseable dates with checkout strictly after
checkin, `calculateTotal` returns `subtotal + serviceFee + taxes`, where
`nights` is the ceiling of `(checkout - checkin)` in whole days
(`86400000` ms), `subtotal = 850 * nights`, the service fee is
round-half-up of `subtotal * 6/100`, the taxes are round-half-up of
`subtotal * 8/100` (rounded individually, not on the combined total);
in particular for checkout exactly one day after checkin the result is
`969`. -/
theorem calculateTotal_breakdown (ci co : Int) (g : ℚ) (h : ci < co) :
    (calculateTotal (.valid ci) (.valid co) g =
      .int (850 * ⌈((co : ℚ) - (ci : ℚ)) / 86400000⌉
        + ⌊((850 * ⌈((co : ℚ) - (ci : ℚ)) / 86400000⌉ : ℤ) : ℚ) * (6 / 100) + 1 / 2⌋
        + ⌊((850 * ⌈((co : ℚ) - (ci : ℚ)) / 86400000⌉ : ℤ) : ℚ) * (8 / 100) + 1 / 2⌋))
      ∧ calculateTotal (.valid ci) (.valid (ci + 86400000)) g = .int 969 := by
  constructor
  · have hcast : ((co - ci : ℤ) : ℚ) / ((msPerDay : ℕ) : ℚ)
        = ((co : ℚ) - (ci : ℚ)) / 86400000 := by
      push_cast [msPerDay]
      norm_num
    have hq : (0 : ℚ) < ((co : ℚ) - (ci : ℚ)) / 86400000 := by
      apply div_pos
      · exact sub_pos.mpr (by exact_mod_cast h)
      · norm_num
    have hnights : jsCeilDiv (co - ci) msPerDay = ⌈((co : ℚ) - (ci : ℚ)) / 86400000⌉ := by
      rw [jsCeilDiv_eq_ceil, hcast]
    set N : ℤ := ⌈((co : ℚ) - (ci : ℚ)) / 86400000⌉ with hN
    have hpos : ¬ N ≤ 0 := not_le.mpr (Int.ceil_pos.mpr hq)
    have hfee : jsRoundDiv (850 * N * 6) 100 = ⌊((850 * N : ℤ) : ℚ) * (6 / 100) + 1 / 2⌋ := by
      rw [jsRoundDiv_eq_floor _ _ (by norm_num)]
      congr 1
      push_cast
      ring
    have htax : jsRoundDiv (850 * N * 8) 100 = ⌊((850 * N : ℤ) : ℚ) * (8 / 100) + 1 / 2⌋ := by
      rw [jsRoundDiv_eq_floor _ _ (by norm_num)]
      congr 1
      push_cast
      ring
    simp only [calculateTotal, hnights, hpos, if_false, hfee, htax]
  · have h1 : jsCeilDiv (ci + 86400000 - ci) msPerDay = 1 := by
      have he : ci + 86400000 - ci = 86400000 := by ring
      rw [he]
      decide
    simp only [calculateTotal, h1]
    decide

/-- Witness for C1 at `ci = 0`, `co = 86400000`, `g = 2`. -/
theorem calculateTotal_breakdown_witness :
    (0 : ℤ) < 86400000 ∧ calculateTotal (.valid 0) (.valid 86400000) 2 = .int 969 :=
  ⟨by decide, (calculateTotal_breakdown 0 86400000 2 (by decide)).2⟩

/-- Counterexample to C2: a non-empty but unparseable checkout date
produces `NaN` (the `nights <= 0` comparison is false on `NaN`), not
`0`. -/
theorem calculateTotal_unparseable_not_zero :
    calculateTotal (.valid 0) .unparseable 2 = .nan
      ∧ calculateTotal (.valid 0) .unparseable 2 ≠ .int 0 := by
  decide

/-- C2 (amended): a missing (empty) date yields `0`; parseable dates
with checkout at or before checkin yield `0`; but a non-empty
unparseable date, when neither date is missing, yields `NaN` rather
than `0`. -/
theorem calculateTotal_zero_cases :
    (∀ (d : DateInput) (g : ℚ),
      calculateTotal .missing d g = .int 0 ∧ calculateTotal d .missing g = .int 0)
    ∧ (∀ (ci co : Int) (g : ℚ), co ≤ ci → calculateTotal (.valid ci) (.valid co) g = .int 0)
    ∧ (∀ (d : DateInput) (g : ℚ), d ≠ .missing →
        calculateTotal .unparseable d g = .nan ∧ calculateTotal d .unparseable g = .nan) := by
  refine ⟨fun d g => ?_, fun ci co g h => ?_, fun d g hd => ?_⟩
  · cases d <;> simp [calculateTotal]
  · have hle : jsCeilDiv (co - ci) msPerDay ≤ 0 := by
      rw [jsCeilDiv_eq_ceil]
      rw [show ((0 : ℤ)) = ((0 : ℤ)) from rfl]
      refine Int.ceil_le.mpr ?_
      push_cast
      apply div_nonpos_of_nonpos_of_nonneg
      · simpa using (by exact_mod_cast h : (co : ℚ) ≤ (ci : ℚ))
      · positivity
    simp only [calculateTotal, hle, if_pos]
  · cases d with
    | missing => exact absurd rfl hd
    | unparseable => exact ⟨rfl, rfl⟩
    | valid t => exact ⟨rfl, rfl⟩

/-- Witness for C2 (amended) at `ci = 5`, `co = 3`, `g = 2`. -/
theorem calculateTotal_zero_cases_witness :
    (3 : ℤ) ≤ 5 ∧ calculateTotal (.valid 5) (.valid 3) 2 = .int 0 :=
  ⟨by decide, calculateTotal_zero_cases.2.1 5 3 2 (by decide)⟩

/-- C10: the `guests` argument has no influence on the computed price:
for fixed dates, any two guest counts give the same result. -/
theorem calculateTotal_guests_irrelevant (ci co : DateInput) (g1 g2 : ℚ) :
    calculateTotal ci co g1 = calculateTotal ci co g2 := rfl

/-! ## The reservation repository (`MemStorage`)

`MemStorage` keeps bookings in a JavaScript `Map<string, Booking>`;
a `Map` iterates in insertion order and `set` on an existing key
updates the value in place without changing its position.  The map is
modelled as an insertion-ordered association list; UUID keys are
modelled as `Nat`.  `randomUUID()` and `new Date()` inside
`createBooking` are modelled as explicit `id` and `now` parameters
supplied by the environment. -/

/-- A stored booking record (`Booking` of `shared/schema.ts`).
`guestPhone` is nullable (`none` is `null`); `createdAt` is a
timestamp in milliseconds. -/
structure Booking where
  id : Nat
  checkinDate : String
  checkoutDate : String
  guests : ℚ
  guestName : String
  guestEmail : String
  guestPhone : Option String
  totalAmount : String
  status : String
  createdAt : Int
deriving DecidableEq, Repr

/-- A validated booking payload (`InsertBooking` of `shared/schema.ts`):
no `id`/`createdAt`; `guestPhone` is optional (`none` is omitted). -/
structure InsertBooking where
  checkinDate : String
  checkoutDate : String
  guests : ℚ
  guestName : String
  guestEmail : String
  guestPhone : Option String
  totalAmount : String
  status : String
deriving DecidableEq, Repr

/-- A `Partial<Booking>` update payload: every field optional; `none`
means the field is absent from the object. -/
structure BookingPatch where
  id : Option Nat := none
  checkinDate : Option String := none
  checkoutDate : Option String := none
  guests : Option ℚ := none
  guestName : Option String := none
  guestEmail : Option String := none
  guestPhone : Option (Option String) := none
  totalAmount : Option String := none
  status : Option String := none
  createdAt : Option Int := none
deriving DecidableEq, Repr

/-- The `bookings` field of `MemStorage`: an insertion-ordered map. -/
abbrev BookingMap : Type := List (Nat × Booking)

/-- `Map.prototype.set`: update in place if the key exists, else append. -/
def mapSet (m : BookingMap) (k : Nat) (v : Booking) : BookingMap :=
  if (List.any m fun p => p.1 == k) then
    List.map (fun p => if p.1 == k then (k, v) else p) m
  else m ++ [(k, v)]

/-- `Map.prototype.get`: the value at the key, or `undefined`. -/
def mapGet (m : BookingMap) (k : Nat) : Option Booking :=
  Option.map Prod.snd (List.find? (fun p => p.1 == k) m)

/-- `Map.prototype.values()`, in insertion order. -/
def mapValues (m : BookingMap) : List Booking := List.map Prod.snd m

/-- `MemStorage.getBooking(id)`: `this.bookings.get(id)`. -/
def getBooking (m : BookingMap) (id : Nat) : Option Booking := mapGet m id

/-- `insertBooking.guestPhone || null`: both `undefined` and the empty
string are falsy and become `null`. -/
def normalizePhone : Option String → Option String
  | none => none
  | some s => if s = "" then none else some s

/-- `MemStorage.createBooking(insertBooking)`:
`const booking = { ...insertBooking, guestPhone: insertBooking.guestPhone || null, id, createdAt: new Date() }`,
then `this.bookings.set(id, booking)` and `return booking`. -/
def createBooking (m : BookingMap) (ib : InsertBooking) (id : Nat) (now : Int) :
    BookingMap × Booking :=
  let booking : Booking :=
    { id := id
      checkinDate := ib.checkinDate
      checkoutDate := ib.checkoutDate
      guests := ib.guests
      guestName := ib.guestName
      guestEmail := ib.guestEmail
      guestPhone := normalizePhone ib.guestPhone
      totalAmount := ib.totalAmount
      status := ib.status
      createdAt := now }
  (mapSet m id booking, booking)

/-- The object spread `{ ...existing, ...updateData }` with
`updateData : Partial<Booking>`: a present field of the patch wins,
an absent one keeps the existing value. -/
def mergePatch (b : Booking) (p : BookingPatch) : Booking :=
  { id := p.id.getD b.id
    checkinDate := p.checkinDate.getD b.checkinDate
    checkoutDate := p.checkoutDate.getD b.checkoutDate
    guests := p.guests.getD b.guests
    guestName := p.guestName.getD b.guestName
    guestEmail := p.guestEmail.getD b.guestEmail
    guestPhone := p.guestPhone.getD b.guestPhone
    totalAmount := p.totalAmount.getD b.totalAmount
    status := p.status.getD b.status
    createdAt := p.createdAt.getD b.createdAt }

/-- `MemStorage.updateBooking(id, updateData)`:
`const existing = this.bookings.get(id); if (!existing) return undefined;`
`const updated = { ...existing, ...updateData }; this.bookings.set(id, updated); return updated;`. -/
def updateBooking (m : BookingMap) (id : Nat) (p : BookingPatch) :
    BookingMap × Option Booking :=
  match mapGet m id with
  | none => (m, none)
  | some existing =>
    let updated := mergePatch existing p
    (mapSet m id updated, some updated)

/-- `MemStorage.getBookings()`:
`Array.from(this.bookings.values()).sort((a, b) => b.createdAt - a.createdAt)`
(after the `new Date(x).getTime()` round-trip).  `Array.prototype.sort`
is stable, so it is modelled by the stable `List.mergeSort` with the
comparator "`b.createdAt ≤ a.createdAt`" (descending, ties keeping
insertion order). -/
def getBookings (m : BookingMap) : List Booking :=
  List.mergeSort (mapValues m) (fun a b => decide (b.createdAt ≤ a.createdAt))

/-- The record C3 expects from `create`: the created input with *only*
the server-assigned `id` and `createdAt` populated, every other field
(including the phone) copied verbatim from the payload. -/
def populateServerFields (ib : InsertBooking) (id : Nat) (now : Int) : Booking :=
  { id := id
    checkinDate := ib.checkinDate
    checkoutDate := ib.checkoutDate
    guests := ib.guests
    guestName := ib.guestName
    guestEmail := ib.guestEmail
    guestPhone := ib.guestPhone
    totalAmount := ib.totalAmount
    status := ib.status
    createdAt := now }

/-- A payload whose phone is present but the empty string. -/
def emptyPhonePayload : InsertBooking :=
  { checkinDate := "2025-01-01"
    checkoutDate := "2025-01-02"
    guests := 2
    guestName := "Ann"
    guestEmail := "ann@example.com"
    guestPhone := some ""
    totalAmount := "969"
    status := "pending" }

/-- Counterexample to C3: with a present-but-empty phone string, the
stored record is not the input with just `id`/`createdAt` populated —
`guestPhone || null` also turns the empty string into `null`. -/
theorem createBooking_not_populate_only :
    getBooking (createBooking [] emptyPhonePayload 7 5).1 7
      ≠ some (populateServerFields emptyPhonePayload 7 5) := by
  decide

/-- C3 (amended): `create` assigns the fresh identifier and the creation
timestamp (appending a new entry to the store), and an immediate `get`
with that identifier returns exactly the created record: the input with
`id` and `createdAt` populated and a falsy (omitted *or* empty-string)
phone normalized to the absent marker. -/
theorem createBooking_getBooking (m : BookingMap) (ib : InsertBooking) (id : Nat) (now : Int)
    (hfresh : mapGet m id = none) :
    (createBooking m ib id now).1 = m ++ [(id, (createBooking m ib id now).2)]
    ∧ getBooking (createBooking m ib id now).1 id = some (createBooking m ib id now).2
    ∧ (createBooking m ib id now).2 =
      { id := id
        checkinDate := ib.checkinDate
        checkoutDate := ib.checkoutDate
        guests := ib.guests
        guestName := ib.guestName
        guestEmail := ib.guestEmail
        guestPhone := normalizePhone ib.guestPhone
        totalAmount := ib.totalAmount
        status := ib.status
        createdAt := now } := by
  have hnone : List.find? (fun p => p.1 == id) m = none := by
    cases hf : List.find? (fun p => p.1 == id) m with
    | none => rfl
    | some v => rw [mapGet, hf] at hfresh; simp at hfresh
  have hany : (List.any m fun p => p.1 == id) = false := by
    rw [List.any_eq_false]
    intro x hx
    exact List.find?_eq_none.mp hnone x hx
  refine ⟨?_, ?_, rfl⟩
  · simp [createBooking, mapSet, hany]
  · simp [createBooking, getBooking, mapGet, mapSet, hany, List.find?_append, hnone]

/-- Witness for C3 (amended): creating into the empty store and reading
back. -/
theorem createBooking_getBooking_witness :
    mapGet ([] : BookingMap) 0 = none
    ∧ getBooking (createBooking [] emptyPhonePayload 0 3).1 0
        = some (createBooking [] emptyPhonePayload 0 3).2 :=
  ⟨rfl, (createBooking_getBooking [] emptyPhonePayload 0 3 rfl).2.1⟩

/-- C5: updating an identifier that is not in the store returns the
absent marker and leaves the store completely unchanged. -/
theorem updateBooking_unknown (m : BookingMap) (id : Nat) (p : BookingPatch)
    (h : mapGet m id = none) :
    updateBooking m id p = (m, none) := by
  simp [updateBooking, h]

/-- Witness for C5 at the empty store. -/
theorem updateBooking_unknown_witness :
    mapGet ([] : BookingMap) 5 = none ∧ updateBooking [] 5 {} = ([], none) :=
  ⟨rfl, updateBooking_unknown [] 5 {} rfl⟩

/-- C6: updating a stored record merges the given fields into the
existing record; every field absent from the patch keeps its previous
value, and every field present in the patch takes the patch's value. -/
theorem updateBooking_merge (m : BookingMap) (id : Nat) (p : BookingPatch) (b : Booking)
    (h : mapGet m id = some b) :
    updateBooking m id p = (mapSet m id (mergePatch b p), some (mergePatch b p))
    ∧ (mergePatch b p).id = p.id.getD b.id
    ∧ (mergePatch b p).checkinDate = p.checkinDate.getD b.checkinDate
    ∧ (mergePatch b p).checkoutDate = p.checkoutDate.getD b.checkoutDate
    ∧ (mergePatch b p).guests = p.guests.getD b.guests
    ∧ (mergePatch b p).guestName = p.guestName.getD b.guestName
    ∧ (mergePatch b p).guestEmail = p.guestEmail.getD b.guestEmail
    ∧ (mergePatch b p).guestPhone = p.guestPhone.getD b.guestPhone
    ∧ (mergePatch b p).totalAmount = p.totalAmount.getD b.totalAmount
    ∧ (mergePatch b p).status = p.status.getD b.status
    ∧ (mergePatch b p).createdAt = p.createdAt.getD b.createdAt := by
  refine ⟨?_, rfl, rfl, rfl, rfl, rfl, rfl, rfl, rfl, rfl, rfl⟩
  simp [updateBooking, h]

/-- A stable three-element sort computation: if the first element does
not precede the second and the second does not precede the third, the
sort reverses the list. -/
theorem mergeSort_three {α : Type} (le : α → α → Bool) (a b c : α)
    (h1 : le a b = false) (h2 : le b c = false) :
    List.mergeSort [a, b, c] le = [c, b, a] := by
  rw [List.mergeSort]
  norm_num [List.splitInTwo, List.splitAt, List.splitAt.go, List.mergeSort, List.merge, h1, h2]

/-- C4: `getBookings` returns all stored records (a permutation of the
map's values), ordered by creation timestamp descending, with records
sharing a timestamp kept in insertion order (the filter at any fixed
timestamp is unchanged); in particular creating three records at times
`t1 < t2 < t3` lists them newest first. -/
theorem getBookings_ordered (m : BookingMap) :
    List.Perm (getBookings m) (mapValues m)
    ∧ List.Pairwise (fun a b => b.createdAt ≤ a.createdAt) (getBookings m)
    ∧ (∀ t : Int, List.filter (fun b => b.createdAt == t) (getBookings m)
        = List.filter (fun b => b.createdAt == t) (mapValues m))
    ∧ (∀ (t1 t2 t3 : Int) (ib1 ib2 ib3 : InsertBooking), t1 < t2 → t2 < t3 →
        getBookings
            (createBooking (createBooking (createBooking [] ib1 0 t1).1 ib2 1 t2).1 ib3 2 t3).1
          = [(createBooking (createBooking (createBooking [] ib1 0 t1).1 ib2 1 t2).1 ib3 2 t3).2,
             (createBooking (createBooking [] ib1 0 t1).1 ib2 1 t2).2,
             (createBooking [] ib1 0 t1).2]) := by
  have trans : ∀ a b c : Booking,
      (fun a b => decide (b.createdAt ≤ a.createdAt)) a b →
      (fun a b => decide (b.createdAt ≤ a.createdAt)) b c →
      (fun a b => decide (b.createdAt ≤ a.createdAt)) a c := by
    intro a b c hab hbc
    simp only [decide_eq_true_eq] at *
    omega
  have total : ∀ a b : Booking,
      ((fun a b => decide (b.createdAt ≤ a.createdAt)) a b
        || (fun a b => decide (b.createdAt ≤ a.createdAt)) b a) := by
    intro a b
    simpa using Int.le_total b.createdAt a.createdAt
  refine ⟨List.mergeSort_perm _ _, ?_, ?_, ?_⟩
  · exact (List.sorted_mergeSort trans total _).imp (fun h => by simpa using h)
  · intro t
    set le : Booking → Booking → Bool := fun a b => decide (b.createdAt ≤ a.createdAt) with hle
    set pt : Booking → Bool := fun b => b.createdAt == t with hpt
    have h1 : (List.filter pt (mapValues m)).Pairwise (le · ·) := by
      apply List.pairwise_of_forall_mem_list
      intro a ha b hb
      have ha' := (List.mem_filter.mp ha).2
      have hb' := (List.mem_filter.mp hb).2
      simp only [hpt, beq_iff_eq] at ha' hb'
      simp [hle, ha', hb']
    have h3 : List.Sublist (List.filter pt (mapValues m)) (getBookings m) :=
      List.sublist_mergeSort trans total h1 (List.filter_sublist _)
    have h4 : List.filter pt (List.filter pt (mapValues m)) = List.filter pt (mapValues m) :=
      List.filter_eq_self.mpr (fun a ha => (List.mem_filter.mp ha).2)
    have h5 : List.Sublist (List.filter pt (mapValues m)) (List.filter pt (getBookings m)) := by
      have hf := h3.filter pt
      rwa [h4] at hf
    have h6 : List.Perm (List.filter pt (getBookings m)) (List.filter pt (mapValues m)) :=
      (List.mergeSort_perm _ _).filter pt
    exact (h5.eq_of_length h6.length_eq.symm).symm
  · intro t1 t2 t3 ib1 ib2 ib3 h12 h23
    simp only [createBooking]
    norm_num [mapSet, mapValues, getBookings]
    apply mergeSort_three
    · simp only [decide_eq_false_iff_not, not_le]
      exact h12
    · simp only [decide_eq_false_iff_not, not_le]
      exact h23

/-- Witness for C4: three creations at times 1, 2, 3. -/
theorem getBookings_ordered_witness :
    getBookings
        (createBooking (createBooking (createBooking [] emptyPhonePayload 0 1).1
          emptyPhonePayload 1 2).1 emptyPhonePayload 2 3).1
      = [(createBooking (createBooking (createBooking [] emptyPhonePayload 0 1).1
            emptyPhonePayload 1 2).1 emptyPhonePayload 2 3).2,
         (createBooking (createBooking [] emptyPhonePayload 0 1).1 emptyPhonePayload 1 2).2,
         (createBooking [] emptyPhonePayload 0 1).2] :=
  (getBookings_ordered []).2.2.2 1 2 3 emptyPhonePayload emptyPhonePayload emptyPhonePayload
    (by decide) (by decide)

/-- A concrete stored booking used by witnesses. -/
def sampleBooking : Booking :=
  { id := 4
    checkinDate := "2025-03-01"
    checkoutDate := "2025-03-03"
    guests := 3
    guestName := "Bob"
    guestEmail := "bob@example.com"
    guestPhone := none
    totalAmount := "1938"
    status := "pending"
    createdAt := 10 }

/-- Witness for C6: patching only the status of a stored record. -/
theorem updateBooking_merge_witness :
    mapGet [(4, sampleBooking)] 4 = some sampleBooking
    ∧ updateBooking [(4, sampleBooking)] 4 { status := some "confirmed" }
      = (mapSet [(4, sampleBooking)] 4 (mergePatch sampleBooking { status := some "confirmed" }),
         some (mergePatch sampleBooking { status := some "confirmed" })) :=
  ⟨rfl, (updateBooking_merge [(4, sampleBooking)] 4 { status := some "confirmed" }
    sampleBooking rfl).1⟩

/-! ## The booking validation schema (`insertBookingSchema`)

`insertBookingSchema` of `shared/schema.ts` checks, in field order:
`checkinDate: z.string().min(1, "Check-in date is required")`,
`checkoutDate: z.string().min(1, "Check-out date is required")`,
`guests: z.number().min(1, "At least 1 guest is required").max(10, "Maximum 10 guests allowed")`,
`guestName: z.string().min(1, "Guest name is required")`,
`guestEmail: z.string().email("Valid email is required")`,
`guestPhone: z.string().optional()`,
`totalAmount: z.string().min(1, "Total amount is required")`,
`status: z.string().default("pending")`.
zod collects every failing field, so validation is modelled as the list
of `(field, message)` issues; success is the empty list.  A JSON number
is modelled as `ℚ` (exact decimal); note there is *no* `.int()` on
`guests`.

zod's `z.string().email()` is the anchored, case-insensitive regex
matching: an optional run of characters from `A-Z a-z 0-9 _ ' + - .`,
then one character from `A-Z a-z 0-9 _ + -`, then `@`, then one or more
labels (`A-Z a-z 0-9` followed by a run of `A-Z a-z 0-9 -`) each ending
in `.`, then a top-level domain of at least two letters; with two
lookaheads: the string does not start with `.` and contains no `..`. -/

/-- Characters allowed in the email local part before its last
character (the apostrophe is `Char.ofNat 39`). -/
def isEmailLocalChar (c : Char) : Bool :=
  c.isAlpha || c.isDigit || c = '_' || c = Char.ofNat 39 || c = '+' || c = '-' || c = '.'

/-- Characters allowed as the last character of the email local part. -/
def isEmailLocalLastChar (c : Char) : Bool :=
  c.isAlpha || c.isDigit || c = '_' || c = '+' || c = '-'

/-- The email local part: a run of local characters ending in a
restricted local character; nonempty. -/
def emailLocalOk : List Char → Bool
  | [] => false
  | [c] => isEmailLocalLastChar c
  | c :: cs => isEmailLocalChar c && emailLocalOk cs

/-- A domain label: `[A-Za-z0-9][A-Za-z0-9-]*`. -/
def emailLabelOk : List Char → Bool
  | [] => false
  | c :: cs => (c.isAlpha || c.isDigit) && List.all cs (fun d => d.isAlpha || d.isDigit || d = '-')

/-- The top-level domain: letters only, length at least two. -/
def emailTldOk (l : List Char) : Bool :=
  decide (2 ≤ l.length) && List.all l Char.isAlpha

/-- Split a character list at its first `@`, if any. -/
def breakAtSign : List Char → Option (List Char × List Char)
  | [] => none
  | c :: cs =>
    if c = '@' then some ([], cs)
    else
      match breakAtSign cs with
      | none => none
      | some (l, r) => some (c :: l, r)

/-- Split a character list on every `.`. -/
def splitOnDot : List Char → List (List Char)
  | [] => [[]]
  | c :: cs =>
    if c = '.' then [] :: splitOnDot cs
    else
      match splitOnDot cs with
      | [] => [[c]]
      | p :: ps => (c :: p) :: ps

/-- The email domain: one or more labels followed by a final TLD,
separated by dots. -/
def emailDomainOk (ds : List Char) : Bool :=
  let parts := splitOnDot ds
  match parts.getLast? with
  | none => false
  | some tld => decide (2 ≤ parts.length) && List.all parts.dropLast emailLabelOk && emailTldOk tld

/-- The string does not begin with a dot (regex lookahead). -/
def noLeadingDot : List Char → Bool
  | '.' :: _ => false
  | _ => true

/-- The string contains no `..` anywhere (regex lookahead). -/
def noDoubleDot : List Char → Bool
  | '.' :: '.' :: _ => false
  | _ :: cs => noDoubleDot cs
  | [] => true

/-- `z.string().email()`: zod's email regex on the whole string. -/
def zodEmailCheck (s : String) : Bool :=
  let cs := s.toList
  noLeadingDot cs && noDoubleDot cs &&
    match breakAtSign cs with
    | none => false
    | some (l, r) => emailLocalOk l && emailDomainOk r

/-- An incoming booking request body after JSON parsing, before
validation.  `status` is optional because the schema supplies the
`"pending"` default when it is absent. -/
structure BookingPayload where
  checkinDate : String
  checkoutDate : String
  guests : ℚ
  guestName : String
  guestEmail : String
  guestPhone : Option String
  totalAmount : String
  status : Option String
deriving DecidableEq, Repr

/-- `insertBookingSchema.parse`: the list of `(field, message)` issues,
in field order; every failing constraint is reported. -/
def validateBooking (p : BookingPayload) : List (String × String) :=
  (if 1 ≤ p.checkinDate.length then [] else [("checkinDate", "Check-in date is required")])
  ++ (if 1 ≤ p.checkoutDate.length then [] else [("checkoutDate", "Check-out date is required")])
  ++ (if 1 ≤ p.guests then [] else [("guests", "At least 1 guest is required")])
  ++ (if p.guests ≤ 10 then [] else [("guests", "Maximum 10 guests allowed")])
  ++ (if 1 ≤ p.guestName.length then [] else [("guestName", "Guest name is required")])
  ++ (if zodEmailCheck p.guestEmail then [] else [("guestEmail", "Valid email is required")])
  ++ (if 1 ≤ p.totalAmount.length then [] else [("totalAmount", "Total amount is required")])

/-- The validated payload on success: the input with the `status`
default `"pending"` applied. -/
def toInsertBooking (p : BookingPayload) : InsertBooking :=
  { checkinDate := p.checkinDate
    checkoutDate := p.checkoutDate
    guests := p.guests
    guestName := p.guestName
    guestEmail := p.guestEmail
    guestPhone := p.guestPhone
    totalAmount := p.totalAmount
    status := p.status.getD "pending" }

/-- If a character list contains no `@`, splitting at the first `@`
yields nothing. -/
theorem breakAtSign_eq_none (cs : List Char) (h : cs.contains '@' = false) :
    breakAtSign cs = none := by
  induction cs with
  | nil => rfl
  | cons c cs ih =>
    rw [List.contains_cons] at h
    rcases Bool.or_eq_false_iff.mp h with ⟨h1, h2⟩
    have hc : ¬ c = '@' := by
      intro hc
      rw [hc] at h1
      simp at h1
    rw [breakAtSign, if_neg hc, ih h2]

/-- An email accepted by the zod regex contains an `@`. -/
theorem zodEmailCheck_contains_at (s : String) (h : s.toList.contains '@' = false) :
    zodEmailCheck s = false := by
  rw [zodEmailCheck, breakAtSign_eq_none s.toList h]
  simp

/-- A request body whose `guests` value is the JSON number `2.5`
(`Rat.divInt 5 2`) and whose other fields are all valid. -/
def halfGuestPayload : BookingPayload :=
  { checkinDate := "2025-01-01"
    checkoutDate := "2025-01-02"
    guests := Rat.divInt 5 2
    guestName := "Ann"
    guestEmail := "ann@example.com"
    guestPhone := none
    totalAmount := "969"
    status := none }

/-- Counterexample to C7: the schema has no integrality check on
`guests` (`z.number().min(1).max(10)` without `.int()`), so the
non-integer guest count `2.5` passes validation. -/
theorem validateBooking_accepts_nonint :
    validateBooking halfGuestPayload = []
    ∧ (∀ n : ℤ, ((n : ℚ)) ≠ halfGuestPayload.guests) := by
  constructor
  · decide
  · intro n hn
    have hd : (halfGuestPayload.guests).den = 2 := by decide
    have h1 : ((n : ℚ)).den = 1 := Rat.den_intCast n
    rw [hn, hd] at h1
    exact absurd h1 (by norm_num)

/-- C7 (amended): the schema enforces `1 ≤ guests ≤ 10` (with the
field-specific messages) and the zod email shape — in particular an
email without `@` fails — but it does not enforce integrality of the
guest count. -/
theorem validateBooking_guests_email (p : BookingPayload) :
    (p.guests < 1 → ("guests", "At least 1 guest is required") ∈ validateBooking p)
    ∧ (10 < p.guests → ("guests", "Maximum 10 guests allowed") ∈ validateBooking p)
    ∧ (p.guestEmail.toList.contains '@' = false →
        ("guestEmail", "Valid email is required") ∈ validateBooking p)
    ∧ (validateBooking p = [] →
        1 ≤ p.guests ∧ p.guests ≤ 10 ∧ p.guestEmail.toList.contains '@' = true) := by
  refine ⟨fun h => ?_, fun h => ?_, fun h => ?_, fun h => ?_⟩
  · simp [validateBooking, not_le.mpr h]
  · simp [validateBooking, not_le.mpr h]
  · simp [validateBooking, zodEmailCheck_contains_at p.guestEmail h]
  · refine ⟨?_, ?_, ?_⟩
    · by_contra hc
      simp [validateBooking, hc] at h
    · by_contra hc
      simp [validateBooking, hc] at h
    · by_contra hc
      have hc' : p.guestEmail.toList.contains '@' = false := by
        cases hb : p.guestEmail.toList.contains '@' with
        | false => rfl
        | true => exact absurd hb hc
      simp [validateBooking, zodEmailCheck_contains_at p.guestEmail hc'] at h

/-- A request body with zero guests and an email without `@`. -/
def zeroGuestPayload : BookingPayload :=
  { checkinDate := "2025-01-01"
    checkoutDate := "2025-01-02"
    guests := 0
    guestName := "Ann"
    guestEmail := "ann.example.com"
    guestPhone := none
    totalAmount := "969"
    status := none }

/-- Witness for C7 (amended): zero guests triggers the minimum message
and an `@`-less email triggers the email message. -/
theorem validateBooking_guests_email_witness :
    ("guests", "At least 1 guest is required") ∈ validateBooking zeroGuestPayload
    ∧ ("guestEmail", "Valid email is required") ∈ validateBooking zeroGuestPayload :=
  ⟨(validateBooking_guests_email zeroGuestPayload).1 (by decide),
   (validateBooking_guests_email zeroGuestPayload).2.2.1 (by decide)⟩

/-! ## The booking route handlers (`server/routes.ts`) -/

/-- `Map.prototype.set` followed by `get` of the same key finds the
value just written, whether the key was fresh or overwritten. -/
theorem find_map_set (m : BookingMap) (k : Nat) (v : Booking)
    (h : (List.any m fun p => p.1 == k) = true) :
    mapGet (List.map (fun p => if p.1 == k then (k, v) else p) m) k = some v := by
  induction m with
  | nil => simp at h
  | cons hd tl ih =>
    rw [List.map_cons]
    by_cases hh : (hd.1 == k) = true
    · rw [if_pos hh, mapGet, List.find?_cons_of_pos _ (by simp)]
      rfl
    · rw [List.any_cons, Bool.or_eq_true_iff] at h
      have htl : (List.any tl fun p => p.1 == k) = true := by
        rcases h with h | h
        · exact absurd h hh
        · exact h
      rw [if_neg hh, mapGet, List.find?_cons_of_neg _ (by simpa using hh)]
      exact ih htl

/-- `mapSet` then `mapGet` at the same key returns the stored value. -/
theorem mapGet_set (m : BookingMap) (k : Nat) (v : Booking) :
    mapGet (mapSet m k v) k = some v := by
  rw [mapSet]
  by_cases hany : (List.any m fun p => p.1 == k) = true
  · rw [if_pos hany]
    exact find_map_set m k v hany
  · rw [if_neg hany]
    have hnone : List.find? (fun p => p.1 == k) m = none :=
      List.find?_eq_none.mpr (List.any_eq_false.mp (Bool.eq_false_iff.mpr hany))
    simp [mapGet, List.find?_append, hnone]

/-- An HTTP response of the booking routes. -/
inductive RouteResponse where
  | created (b : Booking)
  | okJson (b : Booking)
  | validationError (errors : List (String × String))
  | statusRequired
  | notFound
deriving DecidableEq, Repr

/-- The outcome of the `sendBookingConfirmation(booking)` promise as the
route observes it: resolution with the boolean, or rejection. -/
abbrev NotifyOutcome : Type := Except Unit Bool

/-- `sendEmail` of `server/email.ts`: awaits `mailService.send` and
returns `true`; its own `catch` logs the SendGrid error and returns
`false`, so a rejected send never escapes `sendEmail`. -/
def sendEmail : Except Unit Unit → Bool
  | .ok _ => true
  | .error _ => false

/-- Console output of the notification block. -/
inductive LogEvent where
  | warnEmailNotSent (id : Nat)
  | errorEmailException (id : Nat)
deriving DecidableEq, Repr

/-- The notification block of the POST handler:
`if (booking.status === "confirmed") { try { const emailSent = await sendBookingConfirmation(booking); if (!emailSent) console.warn(...); } catch (error) { console.error(...); } }`.
The `catch` consumes a rejected promise, so the block only produces log
output and never throws — reflected in its total return type. -/
def notificationBlock (b : Booking) (outcome : NotifyOutcome) : List LogEvent :=
  if b.status = "confirmed" then
    match outcome with
    | .ok true => []
    | .ok false => [.warnEmailNotSent b.id]
    | .error _ => [.errorEmailException b.id]
  else []

/-- The `POST /api/bookings` handler: validates with
`insertBookingSchema.parse` (a `ZodError` is answered with 400),
persists via `storage.createBooking`, runs the notification block for
confirmed bookings, and responds `201` with the stored record. -/
def postBookingHandler (m : BookingMap) (body : BookingPayload) (id : Nat) (now : Int)
    (outcome : NotifyOutcome) : BookingMap × RouteResponse × List LogEvent :=
  if validateBooking body = [] then
    let r := createBooking m (toInsertBooking body) id now
    (r.1, .created r.2, notificationBlock r.2 outcome)
  else
    (m, .validationError (validateBooking body), [])

/-- C8: once a booking with resulting status `confirmed` is created, the
store, the `201` response and the persisted record are the same for
every notifier outcome — including rejection, which the handler's
`catch` turns into a log entry — and `sendEmail` itself maps a SendGrid
failure to `false` rather than an exception. -/
theorem postBooking_notifier_isolated (m : BookingMap) (body : BookingPayload)
    (id : Nat) (now : Int) (hval : validateBooking body = [])
    (hconf : (toInsertBooking body).status = "confirmed") :
    (∀ outcome : NotifyOutcome,
      (postBookingHandler m body id now outcome).1
        = (createBooking m (toInsertBooking body) id now).1
      ∧ (postBookingHandler m body id now outcome).2.1
        = .created (createBooking m (toInsertBooking body) id now).2
      ∧ getBooking (postBookingHandler m body id now outcome).1 id
        = some (createBooking m (toInsertBooking body) id now).2)
    ∧ notificationBlock (createBooking m (toInsertBooking body) id now).2 (.error ())
      = [.errorEmailException id]
    ∧ sendEmail (.error ()) = false := by
  refine ⟨fun outcome => ⟨?_, ?_, ?_⟩, ?_, rfl⟩
  · simp [postBookingHandler, hval]
  · simp [postBookingHandler, hval]
  · simp only [postBookingHandler, hval, if_pos]
    exact mapGet_set m id (createBooking m (toInsertBooking body) id now).2
  · have hs : (createBooking m (toInsertBooking body) id now).2.status = "confirmed" := hconf
    simp [notificationBlock, hs, hconf, createBooking]

/-- A fully valid request body with status `confirmed`. -/
def confirmedPayload : BookingPayload :=
  { checkinDate := "2025-01-01"
    checkoutDate := "2025-01-02"
    guests := 2
    guestName := "Ann"
    guestEmail := "ann@example.com"
    guestPhone := none
    totalAmount := "969"
    status := some "confirmed" }

/-- Witness for C8: a confirmed booking created while the notifier
throws. -/
theorem postBooking_notifier_isolated_witness :
    (postBookingHandler [] confirmedPayload 0 1 (.error ())).2.1
      = .created (createBooking [] (toInsertBooking confirmedPayload) 0 1).2 :=
  ((postBooking_notifier_isolated [] confirmedPayload 0 1 (by decide) rfl).1 (.error ())).2.1

/-- The `PATCH /api/bookings/:id` handler:
`const { status } = req.body; if (!status) return 400 "Status is required";`
then `storage.updateBooking(req.params.id, { status })`, answering 404
when the update reports an unknown identifier and the updated record
otherwise.  A missing status and the (falsy) empty-string status both
hit the guard. -/
def patchBookingHandler (m : BookingMap) (id : Nat) (status : Option String) :
    BookingMap × RouteResponse :=
  match status with
  | none => (m, .statusRequired)
  | some s =>
    if s = "" then (m, .statusRequired)
    else
      let r := updateBooking m id { status := some s }
      match r.2 with
      | none => (r.1, .notFound)
      | some b => (r.1, .okJson b)

/-- C9: an empty-string status is treated exactly like a missing one —
400 with the store untouched — while any non-empty status string is
accepted and applied to the stored record (or answered 404 when the
identifier is unknown, again without touching the store). -/
theorem patchBooking_empty_status (m : BookingMap) (id : Nat) :
    patchBookingHandler m id (some "") = (m, .statusRequired)
    ∧ patchBookingHandler m id none = (m, .statusRequired)
    ∧ (∀ s : String, s ≠ "" → ∀ b : Booking, mapGet m id = some b →
        patchBookingHandler m id (some s)
          = (mapSet m id (mergePatch b { status := some s }),
             .okJson (mergePatch b { status := some s }))
        ∧ (mergePatch b { status := some s }).status = s)
    ∧ (∀ s : String, s ≠ "" → mapGet m id = none →
        patchBookingHandler m id (some s) = (m, .notFound)) := by
  refine ⟨rfl, rfl, fun s hs b hb => ⟨?_, rfl⟩, fun s hs hn => ?_⟩
  · simp [patchBookingHandler, hs, updateBooking, hb]
  · simp [patchBookingHandler, hs, updateBooking, hn]

/-- Witness for C9: empty-string status rejected, non-empty status
applied, on a one-record store. -/
theorem patchBooking_empty_status_witness :
    patchBookingHandler [(4, sampleBooking)] 4 (some "")
      = ([(4, sampleBooking)], .statusRequired)
    ∧ patchBookingHandler [(4, sampleBooking)] 4 (some "confirmed")
      = (mapSet [(4, sampleBooking)] 4 (mergePatch sampleBooking { status := some "confirmed" }),
         .okJson (mergePatch sampleBooking { status := some "confirmed" })) :=
  ⟨(patchBooking_empty_status [(4, sampleBooking)] 4).1,
   ((patchBooking_empty_status [(4, sampleBooking)] 4).2.2.1 "confirmed" (by decide)
     sampleBooking rfl).1⟩

end Homestay
